import Mathlib

/-!
Verification of the transpyle C++ build pipeline (`transpyle/cpp/compiler.py`).

The development shallowly embeds the pipeline:
* Python string and `pathlib` primitives used by the source are modelled
  character-exactly (`pyStartswith`, `pySplitlines`, `pySplitName`, `PyPath`, ...).
* the pure descriptor synthesis (`SwigCompiler._create_swig_interface`,
  `SwigCompiler.create_swig_interface`) is embedded as pure string functions;
* the effectful build orchestration (`CppSwigCompiler.compile` and its helpers
  `run_swig`, `run_gpp`, `run_cpp_compiler`, `run_cpp_linker`) is embedded as a
  pure function from an environment (host platform, Python build configuration,
  exit codes of the external tools, the header-derivation front end) to a trace
  of filesystem/process effects plus an outcome.
-/

namespace Transpyle

/-- Model of Python `str.startswith`: a prefix test on the character sequence. -/
def pyStartswith (pre s : String) : Bool :=
  pre.data.isPrefixOf s.data

/-- Character-level model of Python `str.splitlines` for texts whose only line
terminator is `'\n'` (the only terminator the pipeline produces): split at each
newline and drop a final empty piece, so `"a\nb\n"` gives `["a", "b"]` and `""`
gives `[]`. -/
def splitlinesChars : List Char → List (List Char)
  | [] => []
  | c :: cs =>
    if c = '\n' then [] :: splitlinesChars cs
    else
      match splitlinesChars cs with
      | [] => [[c]]
      | l :: ls => (c :: l) :: ls

/-- Model of Python `str.splitlines` on strings. -/
def pySplitlines (s : String) : List String :=
  (splitlinesChars s.data).map String.mk

/-- Model of Python `sep.join(parts)`. -/
def joinWith (sep : String) : List String → String
  | [] => ""
  | [x] => x
  | x :: y :: ys => x ++ sep ++ joinWith sep (y :: ys)

/-- Model of pathlib's suffix/stem split of a file name: the suffix starts at the
last dot of the name, provided that dot is neither the first character (a leading
dot marks a hidden file, not a suffix) nor the last one.  Returns
`(stem, suffix)` with `stem ++ suffix = name`. -/
def pySplitName (name : List Char) : List Char × List Char :=
  let afterRev := name.reverse.takeWhile (fun c => c != '.')
  match name.reverse.dropWhile (fun c => c != '.') with
  | [] => (name, [])
  | _ :: stemRev =>
    if stemRev = [] ∨ afterRev = [] then (name, [])
    else (stemRev.reverse, '.' :: afterRev.reverse)

/-- Model of `pathlib.PurePath.stem` on a file name. -/
def pyStem (s : String) : String :=
  String.mk (pySplitName s.data).1

/-- Model of the `pathlib.PurePath.suffix` of a file name. -/
def pySuffix (s : String) : String :=
  String.mk (pySplitName s.data).2

/-- Model of a `pathlib` path as its list of parts; an absolute path is
represented with a leading empty segment so that rendering with `"/"` separators
reproduces the POSIX string form. -/
structure PyPath where
  segments : List String
deriving DecidableEq

/-- Model of `pathlib.PurePath.name` (the final path component). -/
def PyPath.name (p : PyPath) : String :=
  (p.segments.getLast?).getD ""

/-- Model of `pathlib.PurePath.joinpath` with one relative component. -/
def PyPath.join (p : PyPath) (s : String) : PyPath :=
  ⟨p.segments ++ [s]⟩

/-- Model of `pathlib.PurePath.with_name`. -/
def PyPath.withName (p : PyPath) (n : String) : PyPath :=
  ⟨p.segments.dropLast ++ [n]⟩

/-- Model of `pathlib.PurePath.with_suffix`: replace (or, for a name without a
suffix, append to) the suffix of the final component. -/
def PyPath.withSuffix (p : PyPath) (suf : String) : PyPath :=
  p.withName (pyStem p.name ++ suf)

/-- Model of `pathlib.PurePath.relative_to` for the use in the source, where the
base is a proper segment-wise prefix of the path. -/
def PyPath.relativeTo (p base : PyPath) : PyPath :=
  ⟨p.segments.drop base.segments.length⟩

/-- Render a path to its string form, as Python's `str(path)` does. -/
def PyPath.render (p : PyPath) : String :=
  joinWith "/" p.segments

/-- Model of `pathlib.Path(string)` for the slash-free strings it is applied to. -/
def PyPath.ofString (s : String) : PyPath :=
  ⟨s.splitOn "/"⟩

/-- Python whitespace predicate used by `str.split()` and `str.strip()`. -/
def pyIsSpace (c : Char) : Bool :=
  (c == ' ') || (c == '\t') || (c == '\n') || (c == '\r') || (c == '\x0b') || (c == '\x0c')

/-- Model of Python `str.lstrip(chars)`: drop leading characters belonging to the
given character set. -/
def pyLstrip (chars : String) (s : String) : String :=
  String.mk (s.data.dropWhile (fun c => chars.data.contains c))

/-- Model of Python `str.strip()`. -/
def pyStrip (s : String) : String :=
  String.mk (((s.data.dropWhile pyIsSpace).reverse.dropWhile pyIsSpace).reverse)

/-- Model of Python `str.split()` (split on whitespace runs, no empty words). -/
def pySplitWhitespace (s : String) : List String :=
  let p := s.data.foldr
    (fun c (acc : Option (List Char) × List (List Char)) =>
      if pyIsSpace c then
        match acc.1 with
        | none => acc
        | some w => (none, w :: acc.2)
      else
        match acc.1 with
        | none => (some [c], acc.2)
        | some w => (some (c :: w), acc.2))
    (none, [])
  (match p.1 with
   | none => p.2
   | some w => w :: p.2).map String.mk

/-- Model of the comprehension `[x.strip() for x in flags if x.strip()]` applied
to both flag lists in the source. -/
def stripFilter (l : List String) : List String :=
  l.filterMap (fun s =>
    let t := pyStrip s
    if t = "" then none else some t)

/-- Line classification of `SwigCompiler._create_swig_interface` (lines 86-91 of
the source): a header line goes to the include block iff it starts with
`#include`, every other line goes to the declaration block, both in original
order.  The Python loop appends each line to exactly one of the two lists, which
is exactly `List.partition`. -/
def classifyHeaderLines (lines : List String) : List String × List String :=
  lines.partition (fun line => pyStartswith "#include" line)

/-- The descriptor synthesis of `SwigCompiler._create_swig_interface` after the
header text has been derived (spec contract A, `fromHeader`): instantiate
`SWIG_INTERFACE_TEMPLATE` with the module name, the include-directive block and
the declaration-signature block. -/
def createSwigInterfaceOfHeader (moduleName headerCode : String) : String :=
  let parts := classifyHeaderLines (pySplitlines headerCode)
  "/* File: " ++ moduleName ++ ".i */\n/* Generated by transpyle. */\n%module " ++ moduleName
    ++ "\n\n%\x7b\n#define SWIG_FILE_WITH_INIT\n" ++ joinWith "\n" parts.1
    ++ "\n%\x7d\n\n" ++ joinWith "\n" parts.2 ++ "\n"

/-- The fixed runtime string-handling compatibility annotation of
`SWIG_INTERFACE_TEMPLATE_HPP` (the SWIG Python-3 byte-char mode define). -/
def annotationLine : String :=
  "#define SWIG_PYTHON_STRICT_BYTE_CHAR"

/-- The lines of `SWIG_INTERFACE_TEMPLATE_HPP` instantiated with a module name
and an include path (the template has exactly these 19 lines, two of them
holding the two `include_path` holes and two the `module_name` holes). -/
def templateHppLines (moduleName includePath : String) : List String :=
  ["/* File: " ++ moduleName ++ ".i */",
   "/* Generated by transpyle. */",
   "%module " ++ moduleName,
   "",
   "%\x7b",
   "#define SWIG_FILE_WITH_INIT",
   "#include \"" ++ includePath ++ "\"",
   "%\x7d",
   "",
   "%include \"" ++ includePath ++ "\"",
   "",
   "// below is Python 3 support, however,",
   "// adding it will generate wrong .so file",
   "// for Fedora 25 on ARMv7. So be sure to",
   "// comment them when you compile for",
   "// Fedora 25 on ARMv7.",
   "%begin %\x7b",
   annotationLine,
   "%\x7d"]

/-- `SWIG_INTERFACE_TEMPLATE_HPP` instantiated (`.format` applied); the template
string ends with a newline. -/
def swigInterfaceTemplateHpp (moduleName includePath : String) : String :=
  joinWith "\n" (templateHppLines moduleName includePath) ++ "\n"

/-- `SwigCompiler.create_swig_interface` (lines 98-104, spec contract B,
`fromExistingHeader`): the module name is the stem of the header path and the
path itself is interpolated into the two include holes. -/
def create_swig_interface (path : PyPath) : String :=
  swigInterfaceTemplateHpp (path.withSuffix "").name path.render

/-- Result of one external tool invocation, as `subprocess.CompletedProcess` is
used by the source: argument vector, exit status, captured output.  The runner
`run_tool` itself lives outside the given sources; modelled from the spec:
the invoker "returns a structured result (exit code, captured stdout/stderr,
argument vector)" (spec section 4.3). -/
structure CompletedProcess where
  args : List String
  returncode : Int
  stdout : String
  stderr : String
deriving DecidableEq

/-- Observable filesystem and process effects of one build. -/
inductive FsOp where
  | mkdtemp (dir : PyPath)
  | cleanupTempDir (dir : PyPath)
  | mkdir (dir : PyPath)
  | readFile (path : PyPath)
  | writeFile (path : PyPath) (content : String)
  | copyFile (src dst : PyPath)
  | chdir (dir : PyPath)
  | spawn (tool : String) (args : List String)
deriving DecidableEq

/-- The structured failures of `CppSwigCompiler.compile`.  `generationError`
models the `RuntimeError` of lines 182-185 and carries exactly the values the
source interpolates into its message: the invoked command (`result.args`), the
source path, the captured stderr, the header path, the header text and the
output folder.  `configurationError` models the `KeyError` raised by the
compiler-selection dictionary lookup of line 131 on an unsupported platform
(the spec's `ConfigurationError`).  `assertionError` models the bare
`assert result.returncode == 0` failures of lines 187 and 189. -/
inductive BuildError where
  | generationError (args : List String) (sourcePath : String) (stderr : String)
      (hppPath : String) (headerCode : String) (outputFolder : String)
  | configurationError (system : String)
  | assertionError
deriving DecidableEq

/-- The environment a build runs in: everything the orchestrator reads that is
not one of its arguments.  `headerOf` is the external header-derivation front
end (`create_header_file`, whose reader/parser/generalizer/unparser collaborators
are outside the embedded core); `tmpName` is the path the temporary-directory
allocator returns; the exit codes and captured stderr are what the external
tools produce; the remaining string fields are the host Python build
configuration (`get_config_vars`). -/
structure Env where
  system : String
  initCwd : PyPath
  tmpName : PyPath
  headerOf : PyPath → String
  swigExit : Int
  swigStdout : String
  swigStderr : String
  gppCompileExit : Int
  gppLinkExit : Int
  includepy : String
  basecflags : String
  basecppflags : String
  libdir : String
  ldlibrary : String
  libs : String
  syslibs : String
  linkforshared : String

/-- Result of `run_gpp` and its two wrappers: either the spawn happened (with
its effect and the completed process), or compiler selection failed first and
nothing was spawned. -/
inductive GppOutcome where
  | ok (ops : List FsOp) (result : CompletedProcess)
  | error (e : BuildError)
deriving DecidableEq

/-- Outcome of `CppSwigCompiler.compile`: the returned loader path or the raised
error. -/
inductive Outcome where
  | ok (path : PyPath)
  | error (e : BuildError)
deriving DecidableEq

/-- A finished (or aborted) build: the effect trace in order, and the outcome. -/
structure CompileResult where
  trace : List FsOp
  outcome : Outcome
deriving DecidableEq

/-- `CppSwigCompiler.cpp_flags` (line 125). -/
def cpp_flags : List String := ["-O3", "-fPIC", "-fopenmp"]

/-- The fixed platform-to-compiler mapping `{'Linux': 'g++', 'Darwin': 'clang++'}`
of line 131; an unmapped platform has no compiler (the dictionary lookup raises
`KeyError`). -/
def selectCompiler : String → Option String
  | "Linux" => some "g++"
  | "Darwin" => some "clang++"
  | _ => none

/-- `CppSwigCompiler.run_gpp` (lines 130-134): select the compiler for the host
platform, then run it via `run_tool`.  The dictionary lookup happens before any
subprocess machinery, so on an unsupported platform the error is returned with
no spawn effect.  The exit code of the spawned process is supplied by the
environment per invocation site; captured output is not modelled because no
code path reads it. -/
def run_gpp (env : Env) (exitCode : Int) (args : List String) : GppOutcome :=
  match selectCompiler env.system with
  | none => .error (.configurationError env.system)
  | some compiler =>
    .ok [FsOp.spawn compiler args]
      { args := compiler :: args, returncode := exitCode, stdout := "", stderr := "" }

/-- `SwigCompiler.run_swig` (lines 106-117): run
`swig -python <extra args> <interface path>`. -/
def run_swig (env : Env) (interfacePath : PyPath) (args : List String) :
    List FsOp × CompletedProcess :=
  let swigCmd := "swig" :: "-python" :: (args ++ [interfacePath.render])
  ([FsOp.spawn "swig" ("-python" :: (args ++ [interfacePath.render]))],
   { args := swigCmd, returncode := env.swigExit, stdout := env.swigStdout,
     stderr := env.swigStderr })

/-- The argument vector of `run_cpp_compiler` (lines 139-144):
`gcc -c example.c example_wrap.c -I...` with the fixed flags prepended. -/
def compilerArgsOf (env : Env) (path wrapperPath : PyPath) : List String :=
  cpp_flags ++
    stripFilter (pySplitWhitespace
      ("-I" ++ env.includepy ++ " " ++ env.basecflags ++ " " ++ env.basecppflags)) ++
    ["-c", path.render, wrapperPath.render]

/-- `CppSwigCompiler.run_cpp_compiler` (lines 136-145). -/
def run_cpp_compiler (env : Env) (path wrapperPath : PyPath) : GppOutcome :=
  run_gpp env env.gppCompileExit (compilerArgsOf env path wrapperPath)

/-- The `-o` target of `run_cpp_linker` (line 157):
`path.with_name('_' + path.name).with_suffix('.so')`. -/
def linkerOutputOf (path : PyPath) : PyPath :=
  (path.withName ("_" ++ path.name)).withSuffix ".so"

/-- The argument vector of `run_cpp_linker` (lines 150-157):
`ld -shared example.o example_wrap.o -o _example.so` (run through the compiler
driver) with the fixed flags prepended and the Python runtime link flags. -/
def linkerArgsOf (env : Env) (path wrapperPath : PyPath) : List String :=
  cpp_flags ++
    stripFilter (pySplitWhitespace
      ("-L" ++ env.libdir ++ " -l" ++
        ((PyPath.ofString (pyLstrip "lib" env.ldlibrary)).withSuffix "").render ++ " " ++
        env.libs ++ " " ++ env.syslibs ++ " " ++ env.linkforshared)) ++
    ["-shared", (path.withSuffix ".o").render, (wrapperPath.withSuffix ".o").render,
     "-o", (linkerOutputOf path).render]

/-- `CppSwigCompiler.run_cpp_linker` (lines 147-158). -/
def run_cpp_linker (env : Env) (path wrapperPath : PyPath) : GppOutcome :=
  run_gpp env env.gppLinkExit (linkerArgsOf env path wrapperPath)

/-- The generated glue-source path of line 176:
`output_folder.joinpath(path.with_suffix('').name + '_wrap.cxx')`. -/
def wrapperPathOf (outputFolder path : PyPath) : PyPath :=
  outputFolder.join ((path.withSuffix "").name ++ "_wrap.cxx")

/-- The header path of line 167:
`output_folder.joinpath(path.name).with_suffix('.hpp')`. -/
def hppPathOf (outputFolder path : PyPath) : PyPath :=
  (outputFolder.join path.name).withSuffix ".hpp"

/-- The copied-source path of line 171: `output_folder.joinpath(path.name)`. -/
def cppPathOf (outputFolder path : PyPath) : PyPath :=
  outputFolder.join path.name

/-- The descriptor path of line 173:
`output_folder.joinpath(path.with_suffix('.i').name)`. -/
def swigInterfacePathOf (outputFolder path : PyPath) : PyPath :=
  outputFolder.join (path.withSuffix ".i").name

/-- The argument vector of the SWIG invocation issued by `compile`
(`run_swig(swig_interface_path, '-c++')`, line 180). -/
def swigArgsList (outputFolder path : PyPath) : List String :=
  ["-python", "-c++", (swigInterfacePathOf outputFolder path).render]

/-- Output-directory resolution of lines 162-165: when no folder is given, a
`tempfile.TemporaryDirectory()` scope allocates a directory and, on leaving the
one-statement `with` block, deletes it again; the same path is then re-created
with `mkdir()`. -/
def resolveOutputFolder (env : Env) : Option PyPath → List FsOp × PyPath
  | none =>
    ([FsOp.mkdtemp env.tmpName, FsOp.cleanupTempDir env.tmpName, FsOp.mkdir env.tmpName],
     env.tmpName)
  | some d => ([], d)

/-- `CppSwigCompiler.compile` (lines 160-192), embedded as a function of the
environment and its Python arguments, returning the effect trace and the
outcome.  Mirrors the source statement for statement: resolve the output
folder; derive the header (a read of the source file); write the header; build
the SWIG interface from the header path relative to the output folder; copy the
source; write the interface; remember the working directory and switch to the
output folder; run SWIG; on nonzero exit raise (leaving the working directory
switched); run the compiler and linker under `assert returncode == 0` (ditto);
on success restore the working directory and return the `.py` loader path. -/
def compile (env : Env) (code : String) (path : PyPath) (outputFolder : Option PyPath) :
    CompileResult :=
  let resolved := resolveOutputFolder env outputFolder
  let out := resolved.2
  let headerCode := env.headerOf path
  let hppPath := hppPathOf out path
  let swigInterface := create_swig_interface (hppPath.relativeTo out)
  let cppPath := cppPathOf out path
  let swigInterfacePath := swigInterfacePathOf out path
  let wrapperPath := wrapperPathOf out path
  let swigRun := run_swig env swigInterfacePath ["-c++"]
  let ops0 := resolved.1 ++
    [FsOp.readFile path, FsOp.writeFile hppPath headerCode, FsOp.copyFile path cppPath,
     FsOp.writeFile swigInterfacePath swigInterface, FsOp.chdir out] ++ swigRun.1
  if swigRun.2.returncode ≠ 0 then
    { trace := ops0,
      outcome := .error (.generationError swigRun.2.args path.render swigRun.2.stderr
        hppPath.render headerCode out.render) }
  else
    match run_cpp_compiler env cppPath wrapperPath with
    | .error e => { trace := ops0, outcome := .error e }
    | .ok cOps cRes =>
      if cRes.returncode ≠ 0 then
        { trace := ops0 ++ cOps, outcome := .error .assertionError }
      else
        match run_cpp_linker env cppPath wrapperPath with
        | .error e => { trace := ops0 ++ cOps, outcome := .error e }
        | .ok lOps lRes =>
          if lRes.returncode ≠ 0 then
            { trace := ops0 ++ cOps ++ lOps, outcome := .error .assertionError }
          else
            { trace := ops0 ++ cOps ++ lOps ++ [FsOp.chdir env.initCwd],
              outcome := .ok (cppPath.withSuffix ".py") }

/-- The effect block every build performs before interpreting the SWIG exit
status (lines 166-180): read the source, write the header, copy the source,
write the descriptor, switch the working directory, spawn SWIG. -/
def startOps (env : Env) (out path : PyPath) : List FsOp :=
  [FsOp.readFile path,
   FsOp.writeFile (hppPathOf out path) (env.headerOf path),
   FsOp.copyFile path (cppPathOf out path),
   FsOp.writeFile (swigInterfacePathOf out path)
     (create_swig_interface ((hppPathOf out path).relativeTo out)),
   FsOp.chdir out,
   FsOp.spawn "swig" (swigArgsList out path)]

/-- The spawn events of a trace (external processes started). -/
def spawnEvents (tr : List FsOp) : List FsOp :=
  tr.filter (fun op => match op with | FsOp.spawn _ _ => true | _ => false)

/-- The working-directory changes of a trace, in order. -/
def chdirTargets (tr : List FsOp) : List PyPath :=
  tr.filterMap (fun op => match op with | FsOp.chdir d => some d | _ => none)

/-- The process working directory after a trace, starting from `init`. -/
def finalCwd (init : PyPath) (tr : List FsOp) : PyPath :=
  tr.foldl (fun c op => match op with | FsOp.chdir d => d | _ => c) init

/-- The events of a trace that remove a directory tree (in this model, only the
temporary-directory scope cleanup removes anything). -/
def removalEvents (tr : List FsOp) : List FsOp :=
  tr.filter (fun op => match op with | FsOp.cleanupTempDir _ => true | _ => false)

/-- The destination a trace event writes to, if any. -/
def writeDest : FsOp → Option PyPath
  | FsOp.writeFile p _ => some p
  | FsOp.copyFile _ dst => some dst
  | _ => none

/-- A file name of the shape `.xxx` (leading dot, no further dot, nonempty
tail): the one shape on which prefixing the name with `_` changes where pathlib
splits off the suffix. -/
def isDotfileNoExt (s : String) : Bool :=
  match s.data with
  | '.' :: t => !t.isEmpty && !t.contains '.'
  | _ => false

/-- A sample derived header used by the concrete witness environments. -/
def sampleHeader : String :=
  "#include <cstdio>\nint add(int a, int b);"

/-- A concrete environment in which every external tool succeeds. -/
def envBase : Env :=
  { system := "Linux"
    initCwd := ⟨["", "home", "user"]⟩
    tmpName := ⟨["", "tmp", "transpyle123"]⟩
    headerOf := fun _ => sampleHeader
    swigExit := 0
    swigStdout := ""
    swigStderr := ""
    gppCompileExit := 0
    gppLinkExit := 0
    includepy := "/usr/include/python3.6m"
    basecflags := "-Wall"
    basecppflags := ""
    libdir := "/usr/lib"
    ldlibrary := "libpython3.6m.so"
    libs := "-lm"
    syslibs := ""
    linkforshared := "" }

/-- A concrete environment in which the SWIG invocation exits nonzero. -/
def envSwigFails : Env :=
  { envBase with swigExit := 1, swigStderr := "swig error" }

/-- A concrete environment on an unsupported host platform. -/
def envWin : Env :=
  { envBase with system := "Windows" }

/-- A concrete environment in which the C++ compiler invocation exits nonzero. -/
def envCompilerFails : Env :=
  { envBase with gppCompileExit := 1 }

/-- A concrete source path used by witnesses. -/
def samplePath : PyPath := ⟨["", "src", "example.cpp"]⟩

/-- A concrete explicit output folder used by witnesses. -/
def sampleOut : PyPath := ⟨["", "build"]⟩

/-- The toggle clause of the spec's contract B: there would be some
caller-controllable input under which the descriptor is produced without the
string-handling compatibility annotation. -/
def annotationTogglable : Prop :=
  ∃ p : PyPath, ¬ List.IsInfix annotationLine.data (create_swig_interface p).data

/-!  Theorems.  First general lemmas about the embedded primitives, then the
scenario lemmas characterizing each exit path of `compile`, then the claims. -/

theorem PyPath.name_join (p : PyPath) (s : String) : (p.join s).name = s := by
  simp [PyPath.join, PyPath.name]

theorem PyPath.name_withName (p : PyPath) (n : String) : (p.withName n).name = n := by
  simp [PyPath.withName, PyPath.name]

theorem PyPath.withName_join (p : PyPath) (s n : String) : (p.join s).withName n = p.join n := by
  simp [PyPath.join, PyPath.withName]

theorem PyPath.withSuffix_join (p : PyPath) (s suf : String) :
    (p.join s).withSuffix suf = p.join (pyStem s ++ suf) := by
  simp [PyPath.withSuffix, PyPath.withName_join, PyPath.name_join]

theorem PyPath.name_withSuffix (p : PyPath) (suf : String) :
    (p.withSuffix suf).name = pyStem p.name ++ suf := by
  simp [PyPath.withSuffix, PyPath.name_withName]

theorem chdirTargets_append (a b : List FsOp) :
    chdirTargets (a ++ b) = chdirTargets a ++ chdirTargets b := by
  simp [chdirTargets]

theorem spawnEvents_append (a b : List FsOp) :
    spawnEvents (a ++ b) = spawnEvents a ++ spawnEvents b := by
  simp [spawnEvents]

theorem removalEvents_append (a b : List FsOp) :
    removalEvents (a ++ b) = removalEvents a ++ removalEvents b := by
  simp [removalEvents]

theorem finalCwd_append (init : PyPath) (a b : List FsOp) :
    finalCwd init (a ++ b) = finalCwd (finalCwd init a) b := by
  simp [finalCwd]

theorem chdirTargets_resolve (env : Env) (od : Option PyPath) :
    chdirTargets (resolveOutputFolder env od).1 = [] := by
  cases od <;> rfl

theorem spawnEvents_resolve (env : Env) (od : Option PyPath) :
    spawnEvents (resolveOutputFolder env od).1 = [] := by
  cases od <;> rfl

theorem finalCwd_resolve (env : Env) (od : Option PyPath) (init : PyPath) :
    finalCwd init (resolveOutputFolder env od).1 = init := by
  cases od <;> rfl

theorem chdirTargets_startOps (env : Env) (out path : PyPath) :
    chdirTargets (startOps env out path) = [out] := rfl

theorem spawnEvents_startOps (env : Env) (out path : PyPath) :
    spawnEvents (startOps env out path) =
      [FsOp.spawn "swig" (swigArgsList out path)] := rfl

theorem removalEvents_startOps (env : Env) (out path : PyPath) :
    removalEvents (startOps env out path) = [] := rfl

theorem finalCwd_startOps (env : Env) (out path : PyPath) (init : PyPath) :
    finalCwd init (startOps env out path) = out := rfl

/-- Exit path of lines 181-185: SWIG exited nonzero, so `compile` stops right
after the SWIG spawn and raises, with the working directory left switched. -/
theorem compile_eq_swig_fail (env : Env) (code : String) (path : PyPath) (od : Option PyPath)
    (h : env.swigExit ≠ 0) :
    compile env code path od =
      { trace := (resolveOutputFolder env od).1 ++
          startOps env (resolveOutputFolder env od).2 path,
        outcome := Outcome.error (BuildError.generationError
          ("swig" :: swigArgsList (resolveOutputFolder env od).2 path)
          path.render env.swigStderr
          (hppPathOf (resolveOutputFolder env od).2 path).render
          (env.headerOf path)
          (resolveOutputFolder env od).2.render) } := by
  simp [compile, run_swig, startOps, swigArgsList, h]

/-- Exit path through the `KeyError` of line 131: SWIG succeeded but the host
platform has no compiler mapping, so the compiler-selection lookup raises
before anything further is spawned. -/
theorem compile_eq_config_fail (env : Env) (code : String) (path : PyPath) (od : Option PyPath)
    (hs : env.swigExit = 0) (hsel : selectCompiler env.system = none) :
    compile env code path od =
      { trace := (resolveOutputFolder env od).1 ++
          startOps env (resolveOutputFolder env od).2 path,
        outcome := Outcome.error (BuildError.configurationError env.system) } := by
  simp [compile, run_swig, run_cpp_compiler, run_gpp, startOps, swigArgsList, hs, hsel]

/-- Exit path of the `assert` at line 187: the compiler invocation exited
nonzero. -/
theorem compile_eq_compiler_fail (env : Env) (code : String) (path : PyPath) (od : Option PyPath)
    (cc : String) (hs : env.swigExit = 0) (hsel : selectCompiler env.system = some cc)
    (h1 : env.gppCompileExit ≠ 0) :
    compile env code path od =
      { trace := (resolveOutputFolder env od).1 ++
          startOps env (resolveOutputFolder env od).2 path ++
          [FsOp.spawn cc (compilerArgsOf env (cppPathOf (resolveOutputFolder env od).2 path)
            (wrapperPathOf (resolveOutputFolder env od).2 path))],
        outcome := Outcome.error BuildError.assertionError } := by
  simp [compile, run_swig, run_cpp_compiler, run_gpp, startOps, swigArgsList, hs, hsel, h1]

/-- Exit path of the `assert` at line 189: the linker invocation exited
nonzero. -/
theorem compile_eq_linker_fail (env : Env) (code : String) (path : PyPath) (od : Option PyPath)
    (cc : String) (hs : env.swigExit = 0) (hsel : selectCompiler env.system = some cc)
    (h1 : env.gppCompileExit = 0) (h2 : env.gppLinkExit ≠ 0) :
    compile env code path od =
      { trace := (resolveOutputFolder env od).1 ++
          startOps env (resolveOutputFolder env od).2 path ++
          [FsOp.spawn cc (compilerArgsOf env (cppPathOf (resolveOutputFolder env od).2 path)
            (wrapperPathOf (resolveOutputFolder env od).2 path)),
           FsOp.spawn cc (linkerArgsOf env (cppPathOf (resolveOutputFolder env od).2 path)
            (wrapperPathOf (resolveOutputFolder env od).2 path))],
        outcome := Outcome.error BuildError.assertionError } := by
  simp [compile, run_swig, run_cpp_compiler, run_cpp_linker, run_gpp, startOps, swigArgsList,
    hs, hsel, h1, h2]

/-- Success path of lines 186-192: all three tools succeed, the working
directory is restored, and the `.py` loader path is returned. -/
theorem compile_eq_success (env : Env) (code : String) (path : PyPath) (od : Option PyPath)
    (cc : String) (hs : env.swigExit = 0) (hsel : selectCompiler env.system = some cc)
    (h1 : env.gppCompileExit = 0) (h2 : env.gppLinkExit = 0) :
    compile env code path od =
      { trace := (resolveOutputFolder env od).1 ++
          startOps env (resolveOutputFolder env od).2 path ++
          [FsOp.spawn cc (compilerArgsOf env (cppPathOf (resolveOutputFolder env od).2 path)
            (wrapperPathOf (resolveOutputFolder env od).2 path)),
           FsOp.spawn cc (linkerArgsOf env (cppPathOf (resolveOutputFolder env od).2 path)
            (wrapperPathOf (resolveOutputFolder env od).2 path)),
           FsOp.chdir env.initCwd],
        outcome := Outcome.ok ((cppPathOf (resolveOutputFolder env od).2 path).withSuffix ".py") }
    := by
  simp [compile, run_swig, run_cpp_compiler, run_cpp_linker, run_gpp, startOps, swigArgsList,
    hs, hsel, h1, h2]

/-- C1: whenever the SWIG invocation exits nonzero, `compile` aborts with the
generation error carrying the invoked command, the source path, the captured
stderr, the header path, the header text and the output directory, and the only
process spawned in the whole build is the SWIG invocation itself — neither the
native compiler nor the linker runs. -/
theorem c1_generation_failure_aborts (env : Env) (code : String) (path : PyPath)
    (od : Option PyPath) (h : env.swigExit ≠ 0) :
    (compile env code path od).outcome =
      Outcome.error (BuildError.generationError
        ("swig" :: swigArgsList (resolveOutputFolder env od).2 path)
        path.render env.swigStderr
        (hppPathOf (resolveOutputFolder env od).2 path).render
        (env.headerOf path)
        (resolveOutputFolder env od).2.render) ∧
    spawnEvents (compile env code path od).trace =
      [FsOp.spawn "swig" (swigArgsList (resolveOutputFolder env od).2 path)] := by
  rw [compile_eq_swig_fail env code path od h]
  refine ⟨rfl, ?_⟩
  show spawnEvents (_ ++ _) = _
  rw [spawnEvents_append, spawnEvents_resolve, spawnEvents_startOps]
  rfl

/-- Witness for C1 at a concrete failing environment. -/
theorem c1_witness :
    (compile envSwigFails "int add(int, int);" samplePath (some sampleOut)).outcome =
      Outcome.error (BuildError.generationError
        ["swig", "-python", "-c++", "/build/example.i"]
        "/src/example.cpp" "swig error" "/build/example.hpp" sampleHeader "/build") ∧
    spawnEvents (compile envSwigFails "int add(int, int);" samplePath (some sampleOut)).trace =
      [FsOp.spawn "swig" ["-python", "-c++", "/build/example.i"]] := by
  have h := c1_generation_failure_aborts envSwigFails "int add(int, int);" samplePath
    (some sampleOut) (by decide)
  exact ⟨h.1.trans (by decide), h.2.trans (by decide)⟩

/-- C2 counterexample: the claim "the working directory is restored to its
prior value on every exit path of compile (success and failure alike)" is false
— on the SWIG-failure exit path the working directory stays switched to the
output directory. -/
theorem c2_counterexample :
    finalCwd envSwigFails.initCwd
        (compile envSwigFails "int f();" samplePath (some sampleOut)).trace = sampleOut ∧
    sampleOut ≠ envSwigFails.initCwd ∧
    (compile envSwigFails "int f();" samplePath (some sampleOut)).outcome =
      Outcome.error (BuildError.generationError
        ["swig", "-python", "-c++", "/build/example.i"]
        "/src/example.cpp" "swig error" "/build/example.hpp" sampleHeader "/build") := by
  decide

/-- C2 as amended: `compile` switches the process working directory to the
output directory once, before the generator invocation (and the switch then
spans the compiler and linker invocations as well); it switches back only on
the successful exit path, so every failing exit leaves the working directory
set to the output directory. -/
theorem c2_amended_cwd_restored_only_on_success (env : Env) (code : String) (path : PyPath)
    (od : Option PyPath) :
    chdirTargets (compile env code path od).trace =
      (match (compile env code path od).outcome with
       | Outcome.ok _ => [(resolveOutputFolder env od).2, env.initCwd]
       | Outcome.error _ => [(resolveOutputFolder env od).2]) ∧
    finalCwd env.initCwd (compile env code path od).trace =
      (match (compile env code path od).outcome with
       | Outcome.ok _ => env.initCwd
       | Outcome.error _ => (resolveOutputFolder env od).2) ∧
    (∃ rest, (compile env code path od).trace =
      (resolveOutputFolder env od).1 ++
        startOps env (resolveOutputFolder env od).2 path ++ rest) := by
  by_cases hs : env.swigExit = 0
  · rcases hsel : selectCompiler env.system with _ | cc
    · rw [compile_eq_config_fail env code path od hs hsel]
      refine ⟨?_, ?_, ⟨[], by simp⟩⟩
      · show chdirTargets (_ ++ _) = _
        rw [chdirTargets_append, chdirTargets_resolve, chdirTargets_startOps]
        rfl
      · show finalCwd _ (_ ++ _) = _
        rw [finalCwd_append, finalCwd_resolve, finalCwd_startOps]
    · by_cases h1 : env.gppCompileExit = 0
      · by_cases h2 : env.gppLinkExit = 0
        · rw [compile_eq_success env code path od cc hs hsel h1 h2]
          refine ⟨?_, ?_, ⟨_, rfl⟩⟩
          · show chdirTargets (_ ++ _ ++ _) = _
            rw [chdirTargets_append, chdirTargets_append, chdirTargets_resolve,
              chdirTargets_startOps]
            rfl
          · show finalCwd _ (_ ++ _ ++ _) = _
            rw [finalCwd_append, finalCwd_append, finalCwd_resolve, finalCwd_startOps]
            rfl
        · rw [compile_eq_linker_fail env code path od cc hs hsel h1 h2]
          refine ⟨?_, ?_, ⟨_, rfl⟩⟩
          · show chdirTargets (_ ++ _ ++ _) = _
            rw [chdirTargets_append, chdirTargets_append, chdirTargets_resolve,
              chdirTargets_startOps]
            rfl
          · show finalCwd _ (_ ++ _ ++ _) = _
            rw [finalCwd_append, finalCwd_append, finalCwd_resolve, finalCwd_startOps]
            rfl
      · rw [compile_eq_compiler_fail env code path od cc hs hsel h1]
        refine ⟨?_, ?_, ⟨_, rfl⟩⟩
        · show chdirTargets (_ ++ _ ++ _) = _
          rw [chdirTargets_append, chdirTargets_append, chdirTargets_resolve,
            chdirTargets_startOps]
          rfl
        · show finalCwd _ (_ ++ _ ++ _) = _
          rw [finalCwd_append, finalCwd_append, finalCwd_resolve, finalCwd_startOps]
          rfl
  · rw [compile_eq_swig_fail env code path od hs]
    refine ⟨?_, ?_, ⟨[], by simp⟩⟩
    · show chdirTargets (_ ++ _) = _
      rw [chdirTargets_append, chdirTargets_resolve, chdirTargets_startOps]
      rfl
    · show finalCwd _ (_ ++ _) = _
      rw [finalCwd_append, finalCwd_resolve, finalCwd_startOps]

/-- C4: selecting a compiler on a host platform outside the fixed
Linux/Darwin mapping fails with the configuration error (the `KeyError` of the
dictionary lookup) and produces no spawn: no default compiler is used. -/
theorem c4_unsupported_platform_raises (env : Env) (exitCode : Int) (args : List String)
    (h1 : env.system ≠ "Linux") (h2 : env.system ≠ "Darwin") :
    run_gpp env exitCode args = GppOutcome.error (BuildError.configurationError env.system) ∧
    ∀ ops res, run_gpp env exitCode args ≠ GppOutcome.ok ops res := by
  have hsel : selectCompiler env.system = none := by
    unfold selectCompiler
    split
    · exact absurd (by assumption) h1
    · exact absurd (by assumption) h2
    · rfl
  refine ⟨by simp [run_gpp, hsel], ?_⟩
  intro ops res hcontra
  simp [run_gpp, hsel] at hcontra

/-- Witness for C4 on a concrete unsupported platform. -/
theorem c4_witness :
    run_gpp envWin 0 ["-c", "/build/example.cpp"] =
      GppOutcome.error (BuildError.configurationError "Windows") := by
  have h := c4_unsupported_platform_raises envWin 0 ["-c", "/build/example.cpp"]
    (by decide) (by decide)
  exact h.1.trans (by decide)

/-- C7: the descriptor synthesis is a deterministic function of the header text
and the module name alone — two calls on identical inputs produce byte-identical
descriptor text. -/
theorem c7_synthesis_deterministic (h₁ m₁ h₂ m₂ : String) (hh : h₁ = h₂) (hm : m₁ = m₂) :
    createSwigInterfaceOfHeader m₁ h₁ = createSwigInterfaceOfHeader m₂ h₂ := by
  rw [hh, hm]

/-- Witness for C7 at concrete identical inputs. -/
theorem c7_witness :
    createSwigInterfaceOfHeader "example" sampleHeader =
      createSwigInterfaceOfHeader "example" sampleHeader :=
  c7_synthesis_deterministic sampleHeader "example" sampleHeader "example" rfl rfl

/-- C9: the `code` argument of `compile` is never read — two builds differing
only in `code` have identical traces (hence identical written artifacts, header
and descriptor contents included) and identical outcomes. -/
theorem c9_code_argument_ignored (env : Env) (code₁ code₂ : String) (path : PyPath)
    (od : Option PyPath) :
    compile env code₁ path od = compile env code₂ path od :=
  rfl

/-- C3: the descriptor synthesizer's line classification is a partition: every
line of the header goes to the include block iff it starts with `#include` and
to the declaration block otherwise (occurrence-exactly: the two block counts of
any line sum to its count in the header); both blocks keep the original
relative order (they are sublists of the header's lines); and merging the two
blocks back recovers exactly the header's lines (their concatenation is a
permutation of the original line list, and each block is an order-preserving
selection from it). -/
theorem count_partition_add (p : String → Bool) (l : List String) (a : String) :
    (l.filter p).count a + (l.filter (fun x => !p x)).count a = l.count a := by
  induction l with
  | nil => rfl
  | cons x xs ih =>
    by_cases hx : p x = true
    · rw [List.filter_cons_of_pos hx, List.filter_cons_of_neg (by simp [hx]),
        List.count_cons, List.count_cons]
      omega
    · rw [List.filter_cons_of_neg (by simp [hx]), List.filter_cons_of_pos (by simp [hx]),
        List.count_cons, List.count_cons]
      omega

theorem c3_classification_partition (header : String) :
    (∀ l ∈ (classifyHeaderLines (pySplitlines header)).1, pyStartswith "#include" l = true) ∧
    (∀ l ∈ (classifyHeaderLines (pySplitlines header)).2, pyStartswith "#include" l = false) ∧
    (∀ l, (classifyHeaderLines (pySplitlines header)).1.count l +
      (classifyHeaderLines (pySplitlines header)).2.count l = (pySplitlines header).count l) ∧
    List.Sublist (classifyHeaderLines (pySplitlines header)).1 (pySplitlines header) ∧
    List.Sublist (classifyHeaderLines (pySplitlines header)).2 (pySplitlines header) ∧
    List.Perm ((classifyHeaderLines (pySplitlines header)).1 ++
      (classifyHeaderLines (pySplitlines header)).2) (pySplitlines header) := by
  have hcl : classifyHeaderLines (pySplitlines header) =
      ((pySplitlines header).filter (fun l => pyStartswith "#include" l),
       (pySplitlines header).filter (fun l => !(pyStartswith "#include" l))) :=
    List.partition_eq_filter_filter _ _
  rw [hcl]
  refine ⟨fun l hl => List.of_mem_filter hl, fun l hl => ?_,
    fun l => count_partition_add _ _ l,
    List.filter_sublist _, List.filter_sublist _, List.filter_append_perm _ _⟩
  have hmem := List.of_mem_filter hl
  simpa using hmem

/-- Witness for C3 at a concrete header. -/
theorem c3_witness :
    pyStartswith "#include" "#include <cstdio>" = true ∧
    pyStartswith "#include" "int add(int a, int b);" = false ∧
    (classifyHeaderLines (pySplitlines sampleHeader)).1.count "#include <cstdio>" +
      (classifyHeaderLines (pySplitlines sampleHeader)).2.count "#include <cstdio>" =
      (pySplitlines sampleHeader).count "#include <cstdio>" := by
  have h := c3_classification_partition sampleHeader
  exact ⟨h.1 "#include <cstdio>" (by decide), h.2.1 "int add(int a, int b);" (by decide),
    h.2.2.1 "#include <cstdio>"⟩

theorem string_eq_empty_of_data (s : String) (h : s.data = []) : s = "" := by
  cases s
  simp_all

theorem string_data_ne_nil (s : String) (h : s ≠ "") : s.data ≠ [] :=
  fun hd => h (string_eq_empty_of_data s hd)

/-- Appending a dot-led, dot-free, nonempty extension to a nonempty name makes
pathlib split exactly there. -/
theorem pySplitName_append_ext (s ext : List Char) (hs : s ≠ []) (he : ext ≠ [])
    (hd : '.' ∉ ext) : pySplitName (s ++ '.' :: ext) = (s, '.' :: ext) := by
  have hall : ∀ c ∈ ext.reverse, (c != '.') = true := by
    intro c hc
    rw [List.mem_reverse] at hc
    simp only [bne_iff_ne, ne_eq]
    exact fun hcc => hd (hcc ▸ hc)
  have hrev : (s ++ '.' :: ext).reverse = ext.reverse ++ '.' :: s.reverse := by
    simp
  unfold pySplitName
  rw [hrev, List.takeWhile_append_of_pos hall, List.dropWhile_append_of_pos hall]
  simp [hs, he]

theorem pyStem_ne_empty (s : String) (h : s ≠ "") : pyStem s ≠ "" := by
  intro hc
  have h1 : (pySplitName s.data).1 = [] := congrArg String.data hc
  have hd : s.data ≠ [] := string_data_ne_nil s h
  simp only [pySplitName] at h1
  rcases hdrop : s.data.reverse.dropWhile (fun c => c != '.') with _ | ⟨d, stemRev⟩ <;>
    rw [hdrop] at h1
  · exact hd h1
  · simp only [] at h1
    split at h1
    · exact hd h1
    · next hcond => exact hcond (Or.inl (by simpa using h1))

theorem pyStem_append_ext (s ext : String) (hs : s ≠ "") (he : ext.data ≠ [])
    (hd : '.' ∉ ext.data) :
    pyStem (s ++ "." ++ ext) = s ∧ pySuffix (s ++ "." ++ ext) = "." ++ ext := by
  have hdata : (s ++ "." ++ ext).data = s.data ++ '.' :: ext.data := by
    simp
  have h1 : pySplitName ((s ++ "." ++ ext).data) = (s.data, '.' :: ext.data) := by
    rw [hdata]
    exact pySplitName_append_ext s.data ext.data (string_data_ne_nil s hs) he hd
  constructor
  · show String.mk (pySplitName ((s ++ "." ++ ext).data)).1 = s
    rw [h1]
  · show String.mk (pySplitName ((s ++ "." ++ ext).data)).2 = "." ++ ext
    rw [h1]
    rfl

theorem pyStem_append_py (s : String) (hs : s ≠ "") :
    pyStem (s ++ ".py") = s ∧ pySuffix (s ++ ".py") = ".py" := by
  have h := pyStem_append_ext s "py" hs (by decide) (by decide)
  have he : s ++ "." ++ "py" = s ++ ".py" := String.append_assoc s "." "py"
  rw [he] at h
  exact h

/-- C6: every successful build returns the path of the loader artifact inside
the output directory, whose base name is the source file's base name with the
fixed `.py` extension (different from the source's extension whenever the
source is not itself a `.py` file). -/
theorem c6_loader_artifact (env : Env) (code : String) (path : PyPath) (od : Option PyPath)
    (ret : PyPath) (h : (compile env code path od).outcome = Outcome.ok ret) :
    ret = (resolveOutputFolder env od).2.join (pyStem path.name ++ ".py") ∧
    (path.name ≠ "" →
      pyStem ret.name = pyStem path.name ∧ pySuffix ret.name = ".py" ∧
      (pySuffix path.name ≠ ".py" → pySuffix ret.name ≠ pySuffix path.name)) := by
  by_cases hs : env.swigExit = 0
  · rcases hsel : selectCompiler env.system with _ | cc
    · rw [compile_eq_config_fail env code path od hs hsel] at h
      exact absurd h (by simp)
    · by_cases h1 : env.gppCompileExit = 0
      · by_cases h2 : env.gppLinkExit = 0
        · rw [compile_eq_success env code path od cc hs hsel h1 h2] at h
          have hret : ret =
              (cppPathOf (resolveOutputFolder env od).2 path).withSuffix ".py" := by
            have h' := h
            simp only [Outcome.ok.injEq] at h'
            exact h'.symm
          subst hret
          have hpath : (cppPathOf (resolveOutputFolder env od).2 path).withSuffix ".py" =
              (resolveOutputFolder env od).2.join (pyStem path.name ++ ".py") :=
            PyPath.withSuffix_join _ _ _
          refine ⟨hpath, fun hname => ?_⟩
          have hpy := pyStem_append_py (pyStem path.name) (pyStem_ne_empty path.name hname)
          have hn : ((cppPathOf (resolveOutputFolder env od).2 path).withSuffix ".py").name =
              pyStem path.name ++ ".py" := by
            rw [hpath, PyPath.name_join]
          refine ⟨?_, ?_, ?_⟩
          · rw [hn, hpy.1]
          · rw [hn, hpy.2]
          · intro hsuf
            rw [hn, hpy.2]
            exact fun hcontra => hsuf hcontra.symm
        · rw [compile_eq_linker_fail env code path od cc hs hsel h1 h2] at h
          exact absurd h (by simp)
      · rw [compile_eq_compiler_fail env code path od cc hs hsel h1] at h
        exact absurd h (by simp)
  · rw [compile_eq_swig_fail env code path od hs] at h
    exact absurd h (by simp)

/-- Witness for C6 at a concrete successful build. -/
theorem c6_witness :
    (⟨["", "build", "example.py"]⟩ : PyPath) =
      sampleOut.join (pyStem samplePath.name ++ ".py") ∧
    pyStem (PyPath.mk ["", "build", "example.py"]).name = pyStem samplePath.name ∧
    pySuffix (PyPath.mk ["", "build", "example.py"]).name = ".py" := by
  have h := c6_loader_artifact envBase "int f();" samplePath (some sampleOut)
    ⟨["", "build", "example.py"]⟩ (by decide)
  have h2 := h.2 (by decide)
  exact ⟨h.1, h2.1, h2.2.1⟩

theorem startOps_writes_under (env : Env) (out path : PyPath) :
    List.Forall (fun op =>
      match writeDest op with
      | none => True
      | some d => ∃ n, d = out.join n) (startOps env out path) := by
  refine ⟨trivial, ⟨pyStem path.name ++ ".hpp", PyPath.withSuffix_join _ _ _⟩,
    ⟨path.name, rfl⟩, ⟨(path.withSuffix ".i").name, rfl⟩, trivial, trivial⟩

/-- C10: a build with no explicit output directory first allocates a temporary
directory, immediately deletes it again when the one-statement `with` scope
closes, and re-creates the same path with `mkdir` — all before any artifact is
written; after those first three steps no event of the build removes anything,
every write of the build lands inside that directory, and `compile` never
deletes it, so the directory and its artifacts persist after the build. -/
theorem c10_temp_dir_lifecycle (env : Env) (code : String) (path : PyPath) :
    (compile env code path none).trace.take 3 =
      [FsOp.mkdtemp env.tmpName, FsOp.cleanupTempDir env.tmpName, FsOp.mkdir env.tmpName] ∧
    removalEvents ((compile env code path none).trace.drop 3) = [] ∧
    List.Forall (fun op =>
      match writeDest op with
      | none => True
      | some d => ∃ n, d = env.tmpName.join n) ((compile env code path none).trace.drop 3) := by
  have hunder := startOps_writes_under env env.tmpName path
  by_cases hs : env.swigExit = 0
  · rcases hsel : selectCompiler env.system with _ | cc
    · rw [compile_eq_config_fail env code path none hs hsel]
      exact ⟨rfl, rfl, hunder⟩
    · by_cases h1 : env.gppCompileExit = 0
      · by_cases h2 : env.gppLinkExit = 0
        · rw [compile_eq_success env code path none cc hs hsel h1 h2]
          rw [List.forall_iff_forall_mem] at hunder ⊢
          refine ⟨rfl, rfl, fun op hop => ?_⟩
          have hop' : op ∈ startOps env env.tmpName path ∨
              (op = FsOp.spawn cc (compilerArgsOf env (cppPathOf env.tmpName path)
                (wrapperPathOf env.tmpName path)) ∨
               op = FsOp.spawn cc (linkerArgsOf env (cppPathOf env.tmpName path)
                (wrapperPathOf env.tmpName path)) ∨
               op = FsOp.chdir env.initCwd) := by
            simpa [resolveOutputFolder] using hop
          rcases hop' with hmem | rfl | rfl | rfl
          · exact hunder op hmem
          · trivial
          · trivial
          · trivial
        · rw [compile_eq_linker_fail env code path none cc hs hsel h1 h2]
          rw [List.forall_iff_forall_mem] at hunder ⊢
          refine ⟨rfl, rfl, fun op hop => ?_⟩
          have hop' : op ∈ startOps env env.tmpName path ∨
              (op = FsOp.spawn cc (compilerArgsOf env (cppPathOf env.tmpName path)
                (wrapperPathOf env.tmpName path)) ∨
               op = FsOp.spawn cc (linkerArgsOf env (cppPathOf env.tmpName path)
                (wrapperPathOf env.tmpName path))) := by
            simpa [resolveOutputFolder] using hop
          rcases hop' with hmem | rfl | rfl
          · exact hunder op hmem
          · trivial
          · trivial
      · rw [compile_eq_compiler_fail env code path none cc hs hsel h1]
        rw [List.forall_iff_forall_mem] at hunder ⊢
        refine ⟨rfl, rfl, fun op hop => ?_⟩
        have hop' : op ∈ startOps env env.tmpName path ∨
            op = FsOp.spawn cc (compilerArgsOf env (cppPathOf env.tmpName path)
              (wrapperPathOf env.tmpName path)) := by
          simpa [resolveOutputFolder] using hop
        rcases hop' with hmem | rfl
        · exact hunder op hmem
        · trivial
  · rw [compile_eq_swig_fail env code path none hs]
    exact ⟨rfl, rfl, hunder⟩

theorem dropWhile_head_false (p : Char → Bool) (l : List Char) (x : Char) (xs : List Char)
    (h : l.dropWhile p = x :: xs) : p x = false := by
  have hh := List.head?_dropWhile_not p l
  rw [h] at hh
  exact hh

/-- Prefixing a file name with `_` commutes with pathlib's stem/suffix split,
except on a name of the form `.xxx` (leading dot, no other dot): there the
leading dot is not a suffix marker, but after prefixing it is. -/
theorem pySplitName_cons_underscore (cs : List Char)
    (h : ¬(cs.reverse.dropWhile (fun c => c != '.') = ['.'] ∧
        cs.reverse.takeWhile (fun c => c != '.') ≠ [])) :
    pySplitName ('_' :: cs) = ('_' :: (pySplitName cs).1, (pySplitName cs).2) := by
  have hrev : ('_' :: cs).reverse = cs.reverse ++ ['_'] := by simp
  rcases hdrop : cs.reverse.dropWhile (fun c => c != '.') with _ | ⟨d, ds⟩
  · have hall : ∀ c ∈ cs.reverse, (c != '.') = true := List.dropWhile_eq_nil_iff.mp hdrop
    have hdrop2 : ('_' :: cs).reverse.dropWhile (fun c => c != '.') = [] := by
      rw [hrev, List.dropWhile_append_of_pos hall]
      rfl
    simp only [pySplitName, hdrop, hdrop2]
  · have hdrop2 : ('_' :: cs).reverse.dropWhile (fun c => c != '.') = d :: (ds ++ ['_']) := by
      rw [hrev, List.dropWhile_append]
      simp [hdrop]
    have htake2 : ('_' :: cs).reverse.takeWhile (fun c => c != '.') =
        cs.reverse.takeWhile (fun c => c != '.') := by
      rw [hrev, List.takeWhile_append]
      have hsum := congrArg List.length
        (List.takeWhile_append_dropWhile (fun c => c != '.') cs.reverse)
      rw [List.length_append] at hsum
      have hdlen : (cs.reverse.dropWhile (fun c => c != '.')).length ≠ 0 := by
        rw [hdrop]
        simp
      have hlen : (cs.reverse.takeWhile (fun c => c != '.')).length ≠ cs.reverse.length := by
        omega
      rw [if_neg hlen]
    simp only [pySplitName, hdrop, hdrop2, htake2]
    by_cases hafter : cs.reverse.takeWhile (fun c => c != '.') = []
    · simp [hafter]
    · by_cases hds : ds = []
      · exfalso
        apply h
        refine ⟨?_, hafter⟩
        have hdfalse : (d != '.') = false :=
          dropWhile_head_false (fun c => c != '.') cs.reverse d ds hdrop
        have hdd : d = '.' := by simpa using hdfalse
        rw [hdrop, hds, hdd]
      · have hc1 : ¬(ds ++ ['_'] = [] ∨ cs.reverse.takeWhile (fun c => c != '.') = []) := by
          simp [hafter]
        have hc2 : ¬(ds = [] ∨ cs.reverse.takeWhile (fun c => c != '.') = []) := by
          simp [hds, hafter]
        rw [if_neg hc1, if_neg hc2]
        simp

theorem underscore_safe_of_not_dotfile (s : String) (h : isDotfileNoExt s = false) :
    ¬(s.data.reverse.dropWhile (fun c => c != '.') = ['.'] ∧
      s.data.reverse.takeWhile (fun c => c != '.') ≠ []) := by
  rintro ⟨hdrop, htake⟩
  have hsplit := List.takeWhile_append_dropWhile (fun c => c != '.') s.data.reverse
  rw [hdrop] at hsplit
  have hs : s.data = '.' :: (s.data.reverse.takeWhile (fun c => c != '.')).reverse := by
    have hr := congrArg List.reverse hsplit
    simpa using hr.symm
  have hne : (s.data.reverse.takeWhile (fun c => c != '.')).reverse ≠ [] := by
    simpa using htake
  have hnodot : ('.' : Char) ∉ (s.data.reverse.takeWhile (fun c => c != '.')).reverse := by
    intro hmem
    rw [List.mem_reverse] at hmem
    have hmem' := List.mem_takeWhile_imp hmem
    simp at hmem'
  rw [isDotfileNoExt, hs] at h
  simp only [Bool.and_eq_false_iff, Bool.not_eq_false'] at h
  rcases h with h1 | h2
  · rw [List.isEmpty_iff] at h1
    exact hne h1
  · have hmem : ('.' : Char) ∈ (s.data.reverse.takeWhile (fun c => c != '.')).reverse := by
      simpa using h2
    exact hnodot hmem

theorem pyStem_underscore (s : String) (h : isDotfileNoExt s = false) :
    pyStem ("_" ++ s) = "_" ++ pyStem s := by
  have hlem := pySplitName_cons_underscore s.data (underscore_safe_of_not_dotfile s h)
  show String.mk (pySplitName (("_" ++ s).data)).1 = "_" ++ pyStem s
  rw [show (("_" ++ s).data) = '_' :: s.data from rfl, hlem]
  rfl

/-- C5 counterexample: for a source file named `.bashrc` the derived module
identifier is `.bashrc` (pathlib treats the leading dot as a hidden-file
marker, not a suffix), but the linker output of line 157 is `_.so`, which is
not named with the prefix `_` + module identifier. -/
theorem c5_counterexample_dotfile :
    pyStem ".bashrc" = ".bashrc" ∧
    linkerOutputOf (cppPathOf sampleOut ⟨["", "src", ".bashrc"]⟩) = ⟨["", "build", "_.so"]⟩ ∧
    pyStartswith ("_" ++ pyStem ".bashrc") "_.so" = false := by
  decide

/-- C5 as amended: for every module identifier (the stem of the source file
name, with no restriction) the glue source is named `<module>_wrap` with the
fixed `.cxx` extension; and provided the source file name is not a dotfile
without an extension (a name `.xxx` whose only dot is the leading one), the
shared library produced by the link step is named `_<module>` with the fixed
`.so` extension. -/
theorem c5_amended_artifact_naming (out path : PyPath) :
    wrapperPathOf out path = out.join (pyStem path.name ++ "_wrap.cxx") ∧
    (isDotfileNoExt path.name = false →
      linkerOutputOf (cppPathOf out path) = out.join ("_" ++ pyStem path.name ++ ".so")) := by
  constructor
  · show out.join ((path.withSuffix "").name ++ "_wrap.cxx") = _
    rw [PyPath.name_withSuffix]
    simp
  · intro h
    show ((cppPathOf out path).withName ("_" ++ (cppPathOf out path).name)).withSuffix ".so" = _
    rw [show (cppPathOf out path).name = path.name from PyPath.name_join out path.name]
    rw [show (cppPathOf out path).withName ("_" ++ path.name) = out.join ("_" ++ path.name)
      from PyPath.withName_join out path.name ("_" ++ path.name)]
    rw [PyPath.withSuffix_join]
    rw [pyStem_underscore path.name h]

/-- Witness for the amended C5: the glue-source clause at a dotfile name (it
holds with no proviso), and both clauses at a concrete ordinary source name. -/
theorem c5_witness :
    wrapperPathOf sampleOut ⟨["", "src", ".bashrc"]⟩ =
      sampleOut.join (pyStem ".bashrc" ++ "_wrap.cxx") ∧
    wrapperPathOf sampleOut samplePath = sampleOut.join (pyStem "example.cpp" ++ "_wrap.cxx") ∧
    isDotfileNoExt samplePath.name = false ∧
    linkerOutputOf (cppPathOf sampleOut samplePath) =
      sampleOut.join ("_" ++ pyStem "example.cpp" ++ ".so") := by
  have hdot := c5_amended_artifact_naming sampleOut ⟨["", "src", ".bashrc"]⟩
  have h := c5_amended_artifact_naming sampleOut samplePath
  exact ⟨hdot.1.trans (by decide), h.1.trans (by decide), by decide,
    (h.2 (by decide)).trans (by decide)⟩

theorem no_newline_append (a b : String) (ha : '\n' ∉ a.data) (hb : '\n' ∉ b.data) :
    '\n' ∉ (a ++ b).data := by
  intro hmem
  rcases List.mem_append.mp hmem with h | h
  · exact ha h
  · exact hb h

theorem no_newline_joinWith (sep : String) (hsep : '\n' ∉ sep.data) (l : List String)
    (h : ∀ s ∈ l, '\n' ∉ s.data) : '\n' ∉ (joinWith sep l).data := by
  induction l with
  | nil => simp [joinWith]
  | cons x t ih =>
    rcases t with _ | ⟨y, ys⟩
    · simpa [joinWith] using h x (by simp)
    · show '\n' ∉ (x ++ sep ++ joinWith sep (y :: ys)).data
      exact no_newline_append _ _
        (no_newline_append _ _ (h x (by simp)) hsep)
        (ih (fun s hs => h s (List.mem_cons_of_mem x hs)))

theorem pyStem_no_newline (s : String) (h : '\n' ∉ s.data) : '\n' ∉ (pyStem s).data := by
  intro hmem
  apply h
  have hmem' : '\n' ∈ (pySplitName s.data).1 := hmem
  clear hmem
  rcases hdrop : s.data.reverse.dropWhile (fun c => c != '.') with _ | ⟨d, ds⟩ <;>
    simp only [pySplitName, hdrop] at hmem'
  · exact hmem'
  · split at hmem'
    · exact hmem'
    · rw [List.mem_reverse] at hmem'
      have hds : ds <:+ s.data.reverse := by
        have hsuf := List.dropWhile_suffix (fun c => c != '.') (l := s.data.reverse)
        rw [hdrop] at hsuf
        exact (List.suffix_cons d ds).trans hsuf
      have hrev : '\n' ∈ s.data.reverse := hds.subset hmem'
      rw [List.mem_reverse] at hrev
      exact hrev

theorem segments_name_no_newline (p : PyPath) (h : ∀ s ∈ p.segments, '\n' ∉ s.data) :
    '\n' ∉ p.name.data := by
  unfold PyPath.name
  rcases hgl : p.segments.getLast? with _ | s
  · simp
  · have hmem : s ∈ p.segments := List.mem_of_getLast?_eq_some hgl
    simpa using h s hmem

theorem templateHppLines_no_newline (m pr : String) (hm : '\n' ∉ m.data)
    (hp : '\n' ∉ pr.data) : ∀ s ∈ templateHppLines m pr, '\n' ∉ s.data := by
  rw [← List.forall_iff_forall_mem]
  refine ⟨?_, by decide, ?_, by decide, by decide, by decide, ?_, by decide, by decide, ?_,
    by decide, by decide, by decide, by decide, by decide, by decide, by decide, by decide,
    by decide⟩
  · exact no_newline_append _ _ (no_newline_append _ _ (by decide) hm) (by decide)
  · exact no_newline_append _ _ (by decide) hm
  · exact no_newline_append _ _ (no_newline_append _ _ (by decide) hp) (by decide)
  · exact no_newline_append _ _ (no_newline_append _ _ (by decide) hp) (by decide)

theorem splitlinesChars_append_newline (x : List Char) (hx : '\n' ∉ x) (rest : List Char) :
    splitlinesChars (x ++ '\n' :: rest) = x :: splitlinesChars rest := by
  induction x with
  | nil => simp [splitlinesChars]
  | cons c cx ih =>
    have hc : ¬(c = '\n') := fun hcc => hx (hcc ▸ List.mem_cons_self c cx)
    have hx' : '\n' ∉ cx := fun hmem => hx (List.mem_cons_of_mem c hmem)
    rw [List.cons_append]
    simp only [splitlinesChars, if_neg hc, ih hx']

theorem pySplitlines_joinWith (l : List String) (hne : l ≠ [])
    (h : ∀ s ∈ l, '\n' ∉ s.data) :
    pySplitlines (joinWith "\n" l ++ "\n") = l := by
  induction l with
  | nil => exact absurd rfl hne
  | cons x t ih =>
    rcases t with _ | ⟨y, ys⟩
    · show pySplitlines (x ++ "\n") = [x]
      unfold pySplitlines
      rw [show (x ++ "\n").data = x.data ++ '\n' :: [] from rfl,
        splitlinesChars_append_newline x.data (h x (by simp)) []]
      simp [splitlinesChars]
    · show pySplitlines ((x ++ "\n" ++ joinWith "\n" (y :: ys)) ++ "\n") = x :: y :: ys
      have hx : '\n' ∉ x.data := h x (by simp)
      have hr := ih (by simp) (fun s hs => h s (List.mem_cons_of_mem x hs))
      unfold pySplitlines at hr ⊢
      have hdata : ((x ++ "\n" ++ joinWith "\n" (y :: ys)) ++ "\n").data =
          x.data ++ '\n' :: ((joinWith "\n" (y :: ys) ++ "\n").data) := by
        simp
      rw [hdata, splitlinesChars_append_newline x.data hx, List.map_cons, hr]

theorem data_mem_joinWith_infix (sep : String) (l : List String) (x : String) (hx : x ∈ l) :
    List.IsInfix x.data (joinWith sep l).data := by
  induction l with
  | nil => cases hx
  | cons a t ih =>
    rcases t with _ | ⟨b, bs⟩
    · have hxa : x = a := by simpa using hx
      subst hxa
      exact List.infix_rfl
    · rcases List.mem_cons.mp hx with rfl | hmem
      · exact ⟨[], sep.data ++ (joinWith sep (b :: bs)).data, by simp [joinWith]⟩
      · have hinf := ih hmem
        have hsuf : List.IsSuffix (joinWith sep (b :: bs)).data
            ((a ++ sep ++ joinWith sep (b :: bs)).data) :=
          ⟨(a ++ sep).data, by simp⟩
        exact hinf.trans hsuf.isInfix

theorem annotation_infix_create (p : PyPath) :
    List.IsInfix annotationLine.data (create_swig_interface p).data := by
  have hmem : annotationLine ∈ templateHppLines (p.withSuffix "").name p.render := by
    simp [templateHppLines]
  have hinf := data_mem_joinWith_infix "\n" _ _ hmem
  have hpre : List.IsPrefix
      (joinWith "\n" (templateHppLines (p.withSuffix "").name p.render)).data
      ((joinWith "\n" (templateHppLines (p.withSuffix "").name p.render) ++ "\n").data) :=
    ⟨"\n".data, rfl⟩
  exact hinf.trans hpre.isInfix

theorem isPrefixOf_append_of_length_le (l m k : List Char) (h : l.length ≤ m.length) :
    l.isPrefixOf (m ++ k) = l.isPrefixOf m := by
  induction l generalizing m with
  | nil => simp [List.isPrefixOf]
  | cons a l' ih =>
    rcases m with _ | ⟨b, m'⟩
    · simp at h
    · rw [List.cons_append]
      show (a == b && l'.isPrefixOf (m' ++ k)) = (a == b && l'.isPrefixOf m')
      rw [ih m' (by simpa using h)]

theorem pyStartswith_append_right (pre a b : String) (h : pre.data.length ≤ a.data.length) :
    pyStartswith pre (a ++ b) = pyStartswith pre a := by
  show pre.data.isPrefixOf (a.data ++ b.data) = pre.data.isPrefixOf a.data
  exact isPrefixOf_append_of_length_le _ _ _ h

theorem templateHpp_include_counts (m pr : String) :
    (templateHppLines m pr).countP (fun l => pyStartswith "#include" l) = 1 ∧
    (templateHppLines m pr).countP (fun l => pyStartswith "%include" l) = 1 := by
  have hfile1 : pyStartswith "#include" ("/* File: " ++ m ++ ".i */") = false := by
    rw [String.append_assoc, pyStartswith_append_right _ _ _ (by decide)]
    decide
  have hfile2 : pyStartswith "%include" ("/* File: " ++ m ++ ".i */") = false := by
    rw [String.append_assoc, pyStartswith_append_right _ _ _ (by decide)]
    decide
  have hmod1 : pyStartswith "#include" ("%module " ++ m) = false := by
    rw [pyStartswith_append_right _ _ _ (by decide)]
    decide
  have hmod2 : pyStartswith "%include" ("%module " ++ m) = false := by
    rw [pyStartswith_append_right _ _ _ (by decide)]
    decide
  have hinc1 : pyStartswith "#include" ("#include \"" ++ pr ++ "\"") = true := by
    rw [String.append_assoc, pyStartswith_append_right _ _ _ (by decide)]
    decide
  have hinc2 : pyStartswith "%include" ("#include \"" ++ pr ++ "\"") = false := by
    rw [String.append_assoc, pyStartswith_append_right _ _ _ (by decide)]
    decide
  have hbind1 : pyStartswith "#include" ("%include \"" ++ pr ++ "\"") = false := by
    rw [String.append_assoc, pyStartswith_append_right _ _ _ (by decide)]
    decide
  have hbind2 : pyStartswith "%include" ("%include \"" ++ pr ++ "\"") = true := by
    rw [String.append_assoc, pyStartswith_append_right _ _ _ (by decide)]
    decide
  constructor
  · simp only [templateHppLines, List.countP_cons, List.countP_nil]
    rw [hfile1, hmod1, hinc1, hbind1]
    decide
  · simp only [templateHppLines, List.countP_cons, List.countP_nil]
    rw [hfile2, hmod2, hinc2, hbind2]
    decide

/-- C8 counterexample: the claim's toggle clause is false — there is no
caller-controllable input under which the contract-B descriptor is produced
without the string-handling annotation.  The annotation is baked into the
template unconditionally; the template's own comment says disabling it requires
editing the source. -/
theorem c8_counterexample_annotation_not_togglable : ¬ annotationTogglable := by
  rintro ⟨p, hn⟩
  exact hn (annotation_infix_create p)

/-- C8 as amended: the contract-B descriptor always carries the fixed runtime
string-handling compatibility annotation (no caller input can omit it), and —
for any header path whose rendering is newline-free — its lines are exactly the
template's nineteen lines, containing exactly one `#include` directive and
exactly one bind-entire-header `%include` directive, both referencing the given
header path, and no embedded declaration block. -/
theorem c8_amended_descriptor (p : PyPath) :
    List.IsInfix annotationLine.data (create_swig_interface p).data ∧
    ((∀ s ∈ p.segments, '\n' ∉ s.data) →
      pySplitlines (create_swig_interface p) =
        templateHppLines (p.withSuffix "").name p.render ∧
      (pySplitlines (create_swig_interface p)).countP
        (fun l => pyStartswith "#include" l) = 1 ∧
      (pySplitlines (create_swig_interface p)).countP
        (fun l => pyStartswith "%include" l) = 1) := by
  refine ⟨annotation_infix_create p, fun h => ?_⟩
  have hm : '\n' ∉ ((p.withSuffix "").name).data := by
    rw [PyPath.name_withSuffix]
    exact no_newline_append _ _
      (pyStem_no_newline _ (segments_name_no_newline p h)) (by decide)
  have hpr : '\n' ∉ p.render.data := no_newline_joinWith "/" (by decide) _ h
  have hlines := templateHppLines_no_newline _ _ hm hpr
  have hsplit : pySplitlines (create_swig_interface p) =
      templateHppLines (p.withSuffix "").name p.render :=
    pySplitlines_joinWith _ (by simp [templateHppLines]) hlines
  refine ⟨hsplit, ?_, ?_⟩
  · rw [hsplit]
    exact (templateHpp_include_counts _ _).1
  · rw [hsplit]
    exact (templateHpp_include_counts _ _).2

/-- Witness for the amended C8 at a concrete header path. -/
theorem c8_witness :
    pySplitlines (create_swig_interface ⟨["my_header.hpp"]⟩) =
      templateHppLines "my_header" "my_header.hpp" ∧
    (pySplitlines (create_swig_interface ⟨["my_header.hpp"]⟩)).countP
      (fun l => pyStartswith "#include" l) = 1 ∧
    (pySplitlines (create_swig_interface ⟨["my_header.hpp"]⟩)).countP
      (fun l => pyStartswith "%include" l) = 1 := by
  have h := (c8_amended_descriptor ⟨["my_header.hpp"]⟩).2 (by decide)
  exact ⟨h.1.trans (by decide), h.2.1, h.2.2⟩

end Transpyle
